import Mathlib

/-!
Verification development for the RAG backend (`backend/ingest.py`,
`backend/main.py`, `backend/debug_query.py`).

The Python code is shallowly embedded: pure string manipulation is
translated function-by-function; external collaborators (pandas, the
Groq LLM client, the Chroma vector store, the file system) are modelled
as an explicit environment of oracles, and the effect of the ingestion
pipeline on the persisted index is recorded as an explicit event trace.
-/

namespace RAG

/-! ## Python string primitives

Embeddings of the Python `str` operations used by the source:
`str.strip()`, `str.find(sub)` / `str.rfind(sub)` for a single-character
needle (the only way the source uses them), and slicing `s[a:b]` with
non-negative bounds (the only case reachable in the source). -/

/-- Python `str.strip()` (ASCII whitespace suffices for the inputs the
source manipulates): drop whitespace from both ends. -/
def pyStrip (s : String) : String :=
  ⟨((s.data.dropWhile Char.isWhitespace).reverse.dropWhile Char.isWhitespace).reverse⟩

/-- Python `s.find(c)` for a one-character needle: index of the first
occurrence, `-1` if absent. -/
def pyFind (s : String) (c : Char) : Int :=
  match s.data.findIdx? (fun x => x = c) with
  | some i => (i : Int)
  | none => -1

/-- Python `s.rfind(c)` for a one-character needle: index of the last
occurrence, `-1` if absent. -/
def pyRFind (s : String) (c : Char) : Int :=
  match s.data.reverse.findIdx? (fun x => x = c) with
  | some i => ((s.data.length - 1 - i : Nat) : Int)
  | none => -1

/-- Python slice `s[a:b]` for `0 ≤ a`, `0 ≤ b` (the source only reaches
the slice with `a ≥ 0` and `b ≥ 1`): empty when `a ≥ b`, clamped at the
end of the string. -/
def pySlice (s : String) (a b : Int) : String :=
  ⟨(s.data.drop a.toNat).take (b.toNat - a.toNat)⟩

/-! ## JSON values and a model of `json.loads`

`ingest._call_llm` hands the extracted substring to Python's
`json.loads`.  We model JSON values and a recursive-descent parser for
the JSON grammar (objects, arrays, strings with the standard escapes,
numbers kept as lexed text, `true`/`false`/`null`).  Duplicate object
keys follow Python semantics: the last binding wins (lookup is from the
right).  The parser is fueled; the top-level entry point supplies fuel
exceeding the input length, enough for every input examined here. -/

inductive Json where
  | null : Json
  | bool (b : Bool) : Json
  | num (lexeme : String) : Json
  | str (s : String) : Json
  | arr (elems : List Json) : Json
  | obj (members : List (String × Json)) : Json
  deriving Repr

/-- JSON insignificant whitespace (RFC 8259): space, tab, LF, CR. -/
def jsonWs (c : Char) : Bool :=
  c = ' ' || c = '\t' || c = '\n' || c = '\r'

def skipWs (cs : List Char) : List Char :=
  cs.dropWhile jsonWs

/-- Decode one hex digit. -/
def hexDigit (c : Char) : Option Nat :=
  if '0' ≤ c ∧ c ≤ '9' then some (c.toNat - '0'.toNat)
  else if 'a' ≤ c ∧ c ≤ 'f' then some (c.toNat - 'a'.toNat + 10)
  else if 'A' ≤ c ∧ c ≤ 'F' then some (c.toNat - 'A'.toNat + 10)
  else none

/-- Parse the body of a JSON string after the opening quote; returns the
decoded string and the remaining input (surrogate pairs are not combined,
matching no input examined here). -/
def parseStr : List Char → List Char → Except String (String × List Char)
  | acc, '"' :: rest => .ok (⟨acc.reverse⟩, rest)
  | acc, '\\' :: e :: rest =>
      match e with
      | '"' => parseStr ('"' :: acc) rest
      | '\\' => parseStr ('\\' :: acc) rest
      | '/' => parseStr ('/' :: acc) rest
      | 'b' => parseStr ('\x08' :: acc) rest
      | 'f' => parseStr ('\x0c' :: acc) rest
      | 'n' => parseStr ('\n' :: acc) rest
      | 'r' => parseStr ('\r' :: acc) rest
      | 't' => parseStr ('\t' :: acc) rest
      | 'u' =>
          match rest with
          | h1 :: h2 :: h3 :: h4 :: rest2 =>
              match hexDigit h1, hexDigit h2, hexDigit h3, hexDigit h4 with
              | some a, some b, some c, some d =>
                  parseStr (Char.ofNat (((a * 16 + b) * 16 + c) * 16 + d) :: acc) rest2
              | _, _, _, _ => .error "Invalid \\uXXXX escape"
          | _ => .error "Invalid \\uXXXX escape"
      | _ => .error "Invalid \\escape"
  | acc, c :: rest =>
      if c.toNat < 32 then .error "Invalid control character"
      else parseStr (c :: acc) rest
  | _, [] => .error "Unterminated string"

/-- Characters that may occur in a JSON number lexeme. -/
def numChar (c : Char) : Bool :=
  ('0' ≤ c && c ≤ '9') || c = '-' || c = '+' || c = '.' || c = 'e' || c = 'E'

mutual

/-- Parse one JSON value from the input (fueled). -/
def parseValue : Nat → List Char → Except String (Json × List Char)
  | 0, _ => .error "out of fuel"
  | fuel + 1, cs =>
      match skipWs cs with
      | [] => .error "Expecting value"
      | c :: rest =>
          if c = '"' then
            match parseStr [] rest with
            | .ok (s, rest2) => .ok (.str s, rest2)
            | .error e => .error e
          else if c = '[' then
            match skipWs rest with
            | ']' :: rest2 => .ok (.arr [], rest2)
            | rest2 =>
                match parseElems fuel rest2 [] with
                | .ok (xs, rest3) => .ok (.arr xs, rest3)
                | .error e => .error e
          else if c = '\x7b' then
            match skipWs rest with
            | '\x7d' :: rest2 => .ok (.obj [], rest2)
            | rest2 =>
                match parseMembers fuel rest2 [] with
                | .ok (kvs, rest3) => .ok (.obj kvs, rest3)
                | .error e => .error e
          else if c = 't' then
            match rest with
            | 'r' :: 'u' :: 'e' :: rest2 => .ok (.bool true, rest2)
            | _ => .error "Expecting value"
          else if c = 'f' then
            match rest with
            | 'a' :: 'l' :: 's' :: 'e' :: rest2 => .ok (.bool false, rest2)
            | _ => .error "Expecting value"
          else if c = 'n' then
            match rest with
            | 'u' :: 'l' :: 'l' :: rest2 => .ok (.null, rest2)
            | _ => .error "Expecting value"
          else if c = '-' || ('0' ≤ c && c ≤ '9') then
            .ok (.num ⟨c :: rest.takeWhile numChar⟩, rest.dropWhile numChar)
          else .error "Expecting value"

/-- Parse the elements of a non-empty JSON array (after `[`), fueled. -/
def parseElems : Nat → List Char → List Json → Except String (List Json × List Char)
  | 0, _, _ => .error "out of fuel"
  | fuel + 1, cs, acc =>
      match parseValue fuel cs with
      | .error e => .error e
      | .ok (v, rest) =>
          match skipWs rest with
          | ',' :: rest2 => parseElems fuel rest2 (v :: acc)
          | ']' :: rest2 => .ok ((v :: acc).reverse, rest2)
          | _ => .error "Expecting comma or bracket"

/-- Parse the members of a non-empty JSON object (after the opening
brace), fueled.  Members are appended in input order; lookup takes the
last binding, matching Python's duplicate-key semantics. -/
def parseMembers : Nat → List Char → List (String × Json) →
    Except String (List (String × Json) × List Char)
  | 0, _, _ => .error "out of fuel"
  | fuel + 1, cs, acc =>
      match skipWs cs with
      | '"' :: rest =>
          match parseStr [] rest with
          | .error e => .error e
          | .ok (k, rest2) =>
              match skipWs rest2 with
              | ':' :: rest3 =>
                  match parseValue fuel rest3 with
                  | .error e => .error e
                  | .ok (v, rest4) =>
                      match skipWs rest4 with
                      | ',' :: rest5 => parseMembers fuel rest5 ((k, v) :: acc)
                      | '\x7d' :: rest5 => .ok (((k, v) :: acc).reverse, rest5)
                      | _ => .error "Expecting comma or brace"
              | _ => .error "Expecting colon"
      | _ => .error "Expecting property name"

end

/-- Model of Python `json.loads`: parse one value, then require only
whitespace to remain. -/
def json_loads (s : String) : Except String Json :=
  match parseValue (s.data.length + 1) s.data with
  | .error e => .error e
  | .ok (v, rest) =>
      match skipWs rest with
      | [] => .ok v
      | _ => .error "Extra data"

/-! ## Documents (`langchain_core.documents.Document` as used by `ingest.py`)

Every metadata dict built by `ingest.py` has exactly the keys
`source`, `doc_type`, `release` (per pass) plus `question` (added per
document), so the dicts are modelled as records. -/

structure PassMetadata where
  source : String
  doc_type : String
  release : String
  deriving Repr, DecidableEq

structure DocMetadata where
  source : String
  doc_type : String
  release : String
  question : String
  deriving Repr, DecidableEq

structure Document where
  page_content : String
  metadata : DocMetadata
  deriving Repr, DecidableEq

/-! ## Effect model for the ingestion run

`ingest()` is a straight-line Python function whose effects on the
outside world are: calls to the LLM client, the destructive
`shutil.rmtree(CHROMA_DIR)`, and the bulk `Chroma.from_documents(...)`
write.  We record these as an event trace; a raised exception aborts the
remainder of the sequence, which the writer-over-`Except` monad `EvM`
captures.  Disk failures during the final write itself are outside the
model (no claim conditions on them). -/

inductive Event where
  | llmCall (n : Nat) : Event
  | discard : Event
  | bulkWrite (docs : List Document) : Event
  deriving Repr, DecidableEq

/-- Trace-of-events plus exception result: the effects a run performed,
in order, and its outcome. -/
structure EvM (α : Type) where
  trace : List Event
  result : Except String α
  deriving Repr

instance : Monad EvM where
  pure a := ⟨[], .ok a⟩
  bind x f :=
    match x.result with
    | .error e => ⟨x.trace, .error e⟩
    | .ok a => ⟨x.trace ++ (f a).trace, (f a).result⟩

/-- Record one external effect. -/
def evTell (e : Event) : EvM Unit := ⟨[e], .ok ()⟩

/-- Run an effect-free fallible computation. -/
def evLift {α : Type} (x : Except String α) : EvM α := ⟨[], x⟩

/-- Raise an exception. -/
def evFail {α : Type} (e : String) : EvM α := ⟨[], .error e⟩

/-- The cumulative effect of a trace on the persisted collection
(`none` = no collection on disk, `some docs` = collection holding
exactly `docs`). -/
def applyEvents : List Event → Option (List Document) → Option (List Document)
  | [], st => st
  | .llmCall _ :: rest, st => applyEvents rest st
  | .discard :: rest, _ => applyEvents rest none
  | .bulkWrite docs :: rest, _ => applyEvents rest (some docs)

/-! ## Environment of external collaborators

The pandas data frames and their rendering helpers (`df_to_markdown`,
`defect_stats`, `test_stats`, `metadata_text` — all pandas-level
computations), the file system, and the Groq client are external to the
embedding; each becomes an oracle.  The LLM oracle is indexed by call
number (the source issues its seven `chat.completions.create` calls in a
fixed order) and also receives the prompt the source built. -/

/-- Abstract tabular data (`pandas.DataFrame`); its contents only flow
into prompts, which the claims never inspect. -/
def DataFrame : Type := String

structure IngestEnv where
  /-- `os.getenv("GROQ_API_KEY")`. -/
  apiKey : Option String
  /-- `list(DOCS_DIR.glob(f"*⟨name⟩*.xlsx"))`, as file names in glob order. -/
  globMatches : String → List String
  /-- `pd.read_excel` on a matched file. -/
  readExcel : String → Except String DataFrame
  /-- `df_to_markdown(df)` (pandas `to_markdown` of the first 60 rows). -/
  df_to_markdown : DataFrame → String
  /-- `defect_stats(df)`. -/
  defect_stats : DataFrame → String
  /-- `test_stats(df)`. -/
  test_stats : DataFrame → String
  /-- `metadata_text(df)`. -/
  metadata_text : DataFrame → String
  /-- Response content of the `n`-th `chat.completions.create` call,
  given the user prompt; `.error` models a raised client exception. -/
  llm : Nat → String → Except String String
  /-- `CHROMA_DIR.exists()` at the end of the run. -/
  chromaExists : Bool

/-! ## `ingest._call_llm` and `ingest.pairs_to_documents` -/

/-- `ingest._call_llm`: strip the response, locate the first `[` and the
last `]`; if either is absent, warn and return `[]`; otherwise
`json.loads` the slice (a parse error propagates as an exception).  The
parsed value is returned as the list of (arbitrary JSON) elements; a
successful parse of a `[`-prefixed slice is always an array. -/
def _call_llm (env : IngestEnv) (n : Nat) (user_prompt : String) : EvM (List Json) := do
  evTell (.llmCall n)
  let content ← evLift (env.llm n user_prompt)
  let raw := pyStrip content
  let start := pyFind raw '['
  let stop := pyRFind raw ']' + 1
  if start = -1 ∨ stop = 0 then
    pure []
  else
    match json_loads (pySlice raw start stop) with
    | .error msg => evFail msg
    | .ok (.arr xs) => pure xs
    | .ok _ => evFail "json.loads of a bracket-delimited slice: not a list"

/-- Python `pair.get(key, default)`: raises `AttributeError` unless
`pair` is a dict; duplicate keys resolve to the last binding. -/
def pyGet (pair : Json) (key : String) (dflt : Json) : Except String Json :=
  match pair with
  | .obj kvs =>
      match kvs.reverse.find? (fun kv => kv.1 = key) with
      | some kv => .ok kv.2
      | none => .ok dflt
  | _ => .error "AttributeError: object has no attribute get"

/-- Python `v.strip()` on a JSON value: raises `AttributeError` unless
`v` is a string. -/
def pyStripAttr (v : Json) : Except String String :=
  match v with
  | .str s => .ok (pyStrip s)
  | _ => .error "AttributeError: object has no attribute strip"

/-- `ingest.pairs_to_documents`: for each pair, take the trimmed
`question` and `answer` fields (defaulting to `""` when absent); keep
the pair iff both are non-empty (Python truthiness), rendering
`"Q: ⟨q⟩\nA: ⟨a⟩"` and extending the pass metadata with the question. -/
def pairs_to_documents : List Json → PassMetadata → Except String (List Document)
  | [], _ => .ok []
  | pair :: rest, metadata => do
      let q ← (← pyGet pair "question" (.str "")) |> pyStripAttr
      let a ← (← pyGet pair "answer" (.str "")) |> pyStripAttr
      let tail ← pairs_to_documents rest metadata
      if q ≠ "" ∧ a ≠ "" then
        .ok ({ page_content := "Q: " ++ q ++ "\nA: " ++ a,
               metadata := ⟨metadata.source, metadata.doc_type, metadata.release, q⟩ } :: tail)
      else
        .ok tail

/-! ## Per-pass prompt builders and generation passes -/

/-- Prompt of `ingest.qa_for_defects` (the f-string literal, then
`.strip()`). -/
def defectPrompt (env : IngestEnv) (df : DataFrame) (release filename : String) : String :=
  pyStrip ("\nYou are analyzing defect tracking data for " ++ release ++ " from " ++ filename
    ++ ".\n\n=== DATA (markdown table) ===\n" ++ env.df_to_markdown df
    ++ "\n\n=== COMPUTED STATISTICS ===\n" ++ env.defect_stats df
    ++ "\n\nGenerate ALL questions a user might reasonably ask about this defect data.\nCover every angle:\n- Overall counts and totals\n- Component breakdown and which components are most/least affected\n- Severity and priority distributions\n- Open vs closed defects and resolution rates\n- Specific defects by component, severity, priority, or status\n- Date trends (when were most defects created / resolved?)\n- Which defects are still open?\n- Any notable patterns or outliers\n- Questions about specific issue keys or summaries\n\nProvide precise, data-backed answers.\n")

/-- Prompt of `ingest.qa_for_tests`. -/
def testPrompt (env : IngestEnv) (df : DataFrame) (release filename : String) : String :=
  pyStrip ("\nYou are analyzing test execution data for " ++ release ++ " from " ++ filename
    ++ ".\n\n=== DATA (markdown table) ===\n" ++ env.df_to_markdown df
    ++ "\n\n=== COMPUTED STATISTICS ===\n" ++ env.test_stats df
    ++ "\n\nGenerate ALL questions a user might reasonably ask about this test execution data.\nCover every angle:\n- Total runs and pass/fail/retest/blocked counts\n- Pass rate and failure rate (as percentages)\n- Which suites have the most failures or retests?\n- Automation vs manual split\n- Which testers ran the most tests?\n- Tests linked to defects — which suites have linked defects?\n- Longest/shortest execution times\n- Specific test cases and their statuses\n- Any test cases that need retesting?\n- Patterns across suites or testers\n\nProvide precise, data-backed answers.\n")

/-- Prompt of `ingest.qa_for_metadata`. -/
def metadataPrompt (env : IngestEnv) (df : DataFrame) (release filename : String) : String :=
  pyStrip ("\nYou are analyzing release metadata for " ++ release ++ " from " ++ filename
    ++ ".\n\n=== METADATA ===\n" ++ env.metadata_text df
    ++ "\n\nGenerate ALL questions a user might ask about this release's metadata and\ngeneral information. Cover release name, dates, team size, scope, goals,\nand any other metrics present.\n\nProvide precise answers.\n")

/-- Prompt of `ingest.qa_cross_release`. -/
def crossPrompt (env : IngestEnv)
    (defects_a tests_a meta_a defects_b tests_b meta_b : DataFrame) : String :=
  pyStrip ("\nYou are comparing two software releases: Release A and Release B.\n\n=== RELEASE A — DEFECT STATISTICS ===\n" ++ env.defect_stats defects_a
    ++ "\n\n=== RELEASE B — DEFECT STATISTICS ===\n" ++ env.defect_stats defects_b
    ++ "\n\n=== RELEASE A — TEST EXECUTION STATISTICS ===\n" ++ env.test_stats tests_a
    ++ "\n\n=== RELEASE B — TEST EXECUTION STATISTICS ===\n" ++ env.test_stats tests_b
    ++ "\n\n=== RELEASE A — METADATA ===\n" ++ env.metadata_text meta_a
    ++ "\n\n=== RELEASE B — METADATA ===\n" ++ env.metadata_text meta_b
    ++ "\n\nGenerate ALL cross-release comparison questions a user might ask.\nCover every angle:\n- Which release had more defects overall?\n- How does severity/priority distribution differ between releases?\n- Which components improved or worsened between releases?\n- How do pass rates compare between releases?\n- Which release had better test coverage?\n- Which release had more automated tests?\n- Overall quality trend: is Release B better or worse than Release A?\n- How do open defect counts compare?\n- Tester productivity comparison\n- Suite-level comparison of failures\n\nProvide precise, data-backed answers referencing both releases.\n")

/-- `ingest.qa_for_defects`. -/
def qa_for_defects (env : IngestEnv) (n : Nat) (df : DataFrame)
    (release filename : String) : EvM (List Document) := do
  let pairs ← _call_llm env n (defectPrompt env df release filename)
  evLift (pairs_to_documents pairs ⟨filename, "defect", release⟩)

/-- `ingest.qa_for_tests`. -/
def qa_for_tests (env : IngestEnv) (n : Nat) (df : DataFrame)
    (release filename : String) : EvM (List Document) := do
  let pairs ← _call_llm env n (testPrompt env df release filename)
  evLift (pairs_to_documents pairs ⟨filename, "test_execution", release⟩)

/-- `ingest.qa_for_metadata`. -/
def qa_for_metadata (env : IngestEnv) (n : Nat) (df : DataFrame)
    (release filename : String) : EvM (List Document) := do
  let pairs ← _call_llm env n (metadataPrompt env df release filename)
  evLift (pairs_to_documents pairs ⟨filename, "metadata", release⟩)

/-- `ingest.qa_cross_release`. -/
def qa_cross_release (env : IngestEnv) (n : Nat)
    (defects_a tests_a meta_a defects_b tests_b meta_b : DataFrame) : EvM (List Document) := do
  let pairs ← _call_llm env n (crossPrompt env defects_a tests_a meta_a defects_b tests_b meta_b)
  evLift (pairs_to_documents pairs ⟨"cross_release", "comparison", "all"⟩)

/-! ## `ingest.ingest` -/

/-- The `FileNotFoundError` message raised by `ingest.ingest.load`. -/
def loadErrMsg (name : String) : String :=
  "FileNotFoundError: No file matching *" ++ name ++ "*.xlsx in DOCS_DIR"

/-- The nested `load` of `ingest.ingest`: glob for `*⟨name⟩*.xlsx`;
raise `FileNotFoundError` when nothing matches, otherwise read
`matches[0]` and return it with its file name.  Note: more than one
match is NOT an error — the first match is used silently. -/
def load (env : IngestEnv) (name : String) : Except String (DataFrame × String) :=
  match env.globMatches name with
  | [] => .error (loadErrMsg name)
  | m :: _ => (env.readExcel m).map (fun df => (df, m))

/-- The six required dataset name patterns (`ingest.ingest` lines
308–313), in load order. -/
def requiredDatasets : List String :=
  ["ReleaseA_Defects", "ReleaseA_TestExecution", "ReleaseA_Meta",
   "ReleaseB_Defects", "ReleaseB_TestExecution", "ReleaseB_Meta"]

/-- The six loaded data frames with their file names. -/
structure Loaded where
  defects_a : DataFrame × String
  tests_a : DataFrame × String
  meta_a : DataFrame × String
  defects_b : DataFrame × String
  tests_b : DataFrame × String
  meta_b : DataFrame × String

/-- The load phase of `ingest.ingest` (lines 308–313): the six `load`
calls in source order; the first raised exception aborts. -/
def loadAll (env : IngestEnv) : Except String Loaded := do
  let defects_a ← load env "ReleaseA_Defects"
  let tests_a ← load env "ReleaseA_TestExecution"
  let meta_a ← load env "ReleaseA_Meta"
  let defects_b ← load env "ReleaseB_Defects"
  let tests_b ← load env "ReleaseB_TestExecution"
  let meta_b ← load env "ReleaseB_Meta"
  .ok ⟨defects_a, tests_a, meta_a, defects_b, tests_b, meta_b⟩

/-- The generation phase of `ingest.ingest` (lines 302–332): the load
phase, six per-file passes in order, then the cross-release pass;
`all_docs` accumulates by successive `+=`. -/
def generate (env : IngestEnv) : EvM (List Document) := do
  let L ← evLift (loadAll env)
  let d1 ← qa_for_defects env 0 L.defects_a.1 "ReleaseA" L.defects_a.2
  let d2 ← qa_for_tests env 1 L.tests_a.1 "ReleaseA" L.tests_a.2
  let d3 ← qa_for_metadata env 2 L.meta_a.1 "ReleaseA" L.meta_a.2
  let d4 ← qa_for_defects env 3 L.defects_b.1 "ReleaseB" L.defects_b.2
  let d5 ← qa_for_tests env 4 L.tests_b.1 "ReleaseB" L.tests_b.2
  let d6 ← qa_for_metadata env 5 L.meta_b.1 "ReleaseB" L.meta_b.2
  let d7 ← qa_cross_release env 6 L.defects_a.1 L.tests_a.1 L.meta_a.1
      L.defects_b.1 L.tests_b.1 L.meta_b.1
  pure (d1 ++ d2 ++ d3 ++ d4 ++ d5 ++ d6 ++ d7)

/-- `ingest.ingest`: check the credential, run the generation phase,
then — only then — clear the existing collection if present
(`shutil.rmtree`) and write the aggregated list in one bulk
`Chroma.from_documents` call. -/
def ingest (env : IngestEnv) : EvM (List Document) := do
  match env.apiKey with
  | none => evFail "RuntimeError: GROQ_API_KEY not set. Add it to backend/.env"
  | some _ =>
    let all_docs ← generate env
    if env.chromaExists then evTell .discard else pure ()
    evTell (.bulkWrite all_docs)
    pure all_docs

/-! ## `main.py` — query path

Chroma `where` filters are dicts; the source builds either a single
equality dict or `\x7b"$and": [...]\x7d`, modelled by `WhereClause`.
The vector store and the LLM chain are external: the application state
holds them as optional oracle functions, mirroring the module globals
`vectorstore` and `llm` (`None` before startup completes). -/

inductive WhereClause where
  | eq (field : String) (value : String) : WhereClause
  | andW (clauses : List WhereClause) : WhereClause
  deriving Repr

/-- `POST /query` request body (`main.QueryRequest`); `k` defaults to 8
at the pydantic layer. -/
structure QueryRequest where
  question : String
  release : Option String
  doc_type : Option String
  k : Nat
  deriving Repr

structure SourceDocument where
  content : String
  metadata : DocMetadata
  deriving Repr, DecidableEq

structure QueryResponse where
  answer : String
  sources : List SourceDocument
  deriving Repr, DecidableEq

/-- `fastapi.HTTPException`. -/
structure HTTPError where
  status_code : Nat
  detail : String
  deriving Repr, DecidableEq

/-- The module globals of `main.py` that the `/query` handler reads:
`vectorstore` (its `similarity_search`, taking query text, `k`, and the
optional `where` filter), `llm` (the prompt-chain invocation on context
and question), and `_ingest_running`. -/
structure AppState where
  vectorstore : Option (String → Nat → Option WhereClause → List Document)
  llm : Option (String → String → String)
  ingest_running : Bool

/-- Filter composition of `main.query` (lines 261–275): normalize the
Swagger placeholder `"string"` to `None`, append one equality dict per
truthy field (Python truthiness: `""` is falsy), then combine —
`\x7b"$and": filters\x7d` for two, the single dict for one, `None` for
none. -/
def queryWhere (release doc_type : Option String) : Option WhereClause :=
  let r : Option String :=
    match release with
    | some s => if s = "string" then none else some s
    | none => none
  let d : Option String :=
    match doc_type with
    | some s => if s = "string" then none else some s
    | none => none
  let filters : List WhereClause :=
    (match r with
     | some s => if s ≠ "" then [WhereClause.eq "release" s] else []
     | none => []) ++
    (match d with
     | some s => if s ≠ "" then [WhereClause.eq "doc_type" s] else []
     | none => [])
  match filters with
  | [f1, f2] => some (.andW [f1, f2])
  | [f] => some f
  | _ => none

/-- Filter composition of `debug_query.debug_query` (lines 58–69):
identical, except no `"string"` placeholder normalization. -/
def debugWhere (release doc_type : Option String) : Option WhereClause :=
  let filters : List WhereClause :=
    (match release with
     | some s => if s ≠ "" then [WhereClause.eq "release" s] else []
     | none => []) ++
    (match doc_type with
     | some s => if s ≠ "" then [WhereClause.eq "doc_type" s] else []
     | none => [])
  match filters with
  | [f1, f2] => some (.andW [f1, f2])
  | [f] => some f
  | _ => none

/-- The fixed context separator of `main.query`. -/
def contextSeparator : String := "\n\n---\n\n"

/-- The fixed sentinel used when retrieval returns nothing. -/
def noDocsSentinel : String := "No relevant documents were found."

/-- The `POST /query` handler (`main.query`): `503` when the globals are
not initialized, `503` when `_ingest_running`, otherwise build the
filter, retrieve `k` documents, join their contents with the fixed
separator (or substitute the sentinel when none), invoke the LLM chain,
and return the answer with the retrieved documents as sources. -/
def query (st : AppState) (req : QueryRequest) : Except HTTPError QueryResponse :=
  match st.vectorstore, st.llm with
  | some vs, some chain =>
    if st.ingest_running then
      .error ⟨503, "Ingestion in progress — please retry shortly."⟩
    else
      let whereC := queryWhere req.release req.doc_type
      let docs := vs req.question req.k whereC
      let context :=
        if docs ≠ [] then String.intercalate contextSeparator (docs.map (·.page_content))
        else noDocsSentinel
      let answer := chain context req.question
      .ok ⟨answer, docs.map (fun d => ⟨d.page_content, d.metadata⟩)⟩
  | _, _ => .error ⟨503, "Service not ready."⟩

/-! ## `main.py` — single-flight ingestion guard

`_run_ingest` interleaved across threads (the watcher's executor, the
endpoint's background task pool): each thread executes the same
instruction sequence against shared state `\x7b_ingest_lock,
_ingest_running, vectorstore\x7d`.  Each Python statement of
`_run_ingest` is one atomic step; `gen` counts completed successful
rebuilds, and `store` is the `vectorstore` global (`some g` = handle on
the index produced by rebuild number `g`). -/

namespace Guard

/-- Program counter inside `main._run_ingest`. -/
inductive PC where
  | start   : PC  -- about to try `_ingest_lock.acquire(blocking=False)`
  | setRun  : PC  -- lock acquired; about to set `_ingest_running = True`
  | work    : PC  -- about to run `ingest()` (and `_reload_vectorstore()` on success)
  | cleanup : PC  -- in `finally`: about to set `_ingest_running = False`
  | rel     : PC  -- about to `_ingest_lock.release()`
  | done    : PC  -- returned
  deriving Repr, DecidableEq

/-- Shared process state plus each thread's position in `_run_ingest`.
`held` is the lock with a ghost owner (the source releases only in the
acquiring thread's `finally`). -/
structure SysState where
  held : Option Nat
  running : Bool
  gen : Nat
  store : Option Nat
  pc : Nat → PC

/-- Thread `t` performs one atomic statement of `_run_ingest`;
`outcome t` tells whether its `ingest()` call succeeds or raises. -/
inductive StepBy (outcome : Nat → Bool) (t : Nat) : SysState → SysState → Prop where
  | acquire_fail (s : SysState) (u : Nat) :
      s.pc t = .start → s.held = some u →
      StepBy outcome t s { s with pc := Function.update s.pc t .done }
  | acquire_ok (s : SysState) :
      s.pc t = .start → s.held = none →
      StepBy outcome t s { s with held := some t, pc := Function.update s.pc t .setRun }
  | set_running (s : SysState) :
      s.pc t = .setRun →
      StepBy outcome t s { s with running := true, pc := Function.update s.pc t .work }
  | work_ok (s : SysState) :
      s.pc t = .work → outcome t = true →
      StepBy outcome t s { s with gen := s.gen + 1, store := some (s.gen + 1),
                                  pc := Function.update s.pc t .cleanup }
  | work_fail (s : SysState) :
      s.pc t = .work → outcome t = false →
      StepBy outcome t s { s with pc := Function.update s.pc t .cleanup }
  | clear_running (s : SysState) :
      s.pc t = .cleanup →
      StepBy outcome t s { s with running := false, pc := Function.update s.pc t .rel }
  | release (s : SysState) :
      s.pc t = .rel →
      StepBy outcome t s { s with held := none, pc := Function.update s.pc t .done }

/-- Some thread steps. -/
def Step (outcome : Nat → Bool) (s s' : SysState) : Prop :=
  ∃ t, StepBy outcome t s s'

/-- Process start: lock free, flag clear, no rebuild completed yet, all
threads at entry. -/
def init (store0 : Option Nat) : SysState :=
  { held := none, running := false, gen := 0, store := store0, pc := fun _ => .start }

def Reachable (outcome : Nat → Bool) (store0 : Option Nat) (s : SysState) : Prop :=
  Relation.ReflTransGen (Step outcome) (init store0) s

/-- Positions at which a thread holds the lock and is executing the
ingestion body. -/
def inBody : PC → Bool
  | .setRun => true
  | .work => true
  | .cleanup => true
  | .rel => true
  | _ => false

/-- Lock-ownership invariant: every thread inside the body owns the
lock. -/
def Inv (s : SysState) : Prop :=
  ∀ t, inBody (s.pc t) = true → s.held = some t

end Guard

/-! ## Auxiliary predicates and concrete test fixtures -/

/-- Events that are LLM calls (the only effects of the generation
phase). -/
def isLlmCall : Event → Bool
  | .llmCall _ => true
  | _ => false

def isOkE {ε α : Type} : Except ε α → Bool
  | .ok _ => true
  | .error _ => false

/-- A fixed abstract data frame used by the concrete environments. -/
def df0 : DataFrame := "table"

/-- A well-formed single-pair LLM response. -/
def goodPairResponse : String := "[\x7b\"question\": \"q\", \"answer\": \"a\"\x7d]"

/-- Concrete environment: every dataset pattern matches exactly one
file, reading succeeds, the first LLM call answers `r`, the remaining
six answer `goodPairResponse`, and a previous collection exists on
disk. -/
def envResp (r : String) : IngestEnv :=
  { apiKey := some "k"
    globMatches := fun name => [name ++ ".xlsx"]
    readExcel := fun _ => .ok df0
    df_to_markdown := fun d => d
    defect_stats := fun d => d
    test_stats := fun d => d
    metadata_text := fun d => d
    llm := fun n _ => if n = 0 then .ok r else .ok goodPairResponse
    chromaExists := true }

/-- The documents produced by passes 2–7 of a run over `envResp r`
(pass 1 contributing none). -/
def sixDocs : List Document :=
  [⟨"Q: q\nA: a", ⟨"ReleaseA_TestExecution.xlsx", "test_execution", "ReleaseA", "q"⟩⟩,
   ⟨"Q: q\nA: a", ⟨"ReleaseA_Meta.xlsx", "metadata", "ReleaseA", "q"⟩⟩,
   ⟨"Q: q\nA: a", ⟨"ReleaseB_Defects.xlsx", "defect", "ReleaseB", "q"⟩⟩,
   ⟨"Q: q\nA: a", ⟨"ReleaseB_TestExecution.xlsx", "test_execution", "ReleaseB", "q"⟩⟩,
   ⟨"Q: q\nA: a", ⟨"ReleaseB_Meta.xlsx", "metadata", "ReleaseB", "q"⟩⟩,
   ⟨"Q: q\nA: a", ⟨"cross_release", "comparison", "all", "q"⟩⟩]

/-- The seven LLM-call events of a full generation sequence. -/
def sevenCalls : List Event :=
  [.llmCall 0, .llmCall 1, .llmCall 2, .llmCall 3, .llmCall 4, .llmCall 5, .llmCall 6]

/-- Concrete environment in which the `ReleaseA_Defects` pattern matches
TWO files; every LLM call answers the empty array. -/
def envMulti : IngestEnv :=
  { apiKey := some "k"
    globMatches := fun name =>
      if name = "ReleaseA_Defects" then
        ["ReleaseA_Defects_v1.xlsx", "ReleaseA_Defects_v2.xlsx"]
      else [name ++ ".xlsx"]
    readExcel := fun _ => .ok df0
    df_to_markdown := fun d => d
    defect_stats := fun d => d
    test_stats := fun d => d
    metadata_text := fun d => d
    llm := fun _ _ => .ok "[]"
    chromaExists := true }

/-- Concrete environment in which the `ReleaseA_TestExecution` pattern
matches NO file. -/
def envZeroGlob : IngestEnv :=
  { apiKey := some "k"
    globMatches := fun name =>
      if name = "ReleaseA_TestExecution" then [] else [name ++ ".xlsx"]
    readExcel := fun _ => .ok df0
    df_to_markdown := fun d => d
    defect_stats := fun d => d
    test_stats := fun d => d
    metadata_text := fun d => d
    llm := fun _ _ => .ok "[]"
    chromaExists := true }

/-- The response text of the robust-extraction example in the spec. -/
def c5Response : String :=
  "Sure, here it is: [\x7b\"question\":\"Q1\",\"answer\":\"A1\"\x7d] thanks!"

/-- `\x7b"question": q, "answer": a\x7d` as a JSON dict. -/
def mkPair (q a : String) : Json :=
  .obj [("question", .str q), ("answer", .str a)]

namespace Guard

/-- All `ingest()` calls succeed. -/
def outcomeAll : Nat → Bool := fun _ => true

/-- State after thread 0 successfully acquires the lock from process
start. -/
def s1 : SysState :=
  { held := some 0, running := false, gen := 0, store := some 0,
    pc := Function.update (fun _ => PC.start) 0 PC.setRun }

/-- State with thread 1 mid-ingestion when thread 0's trigger fires. -/
def sHeld : SysState :=
  { held := some 1, running := true, gen := 0, store := some 0,
    pc := fun t => if t = 1 then PC.work else PC.start }

end Guard

/-! ## Helper lemmas: the event monad and traces -/

theorem evBind_def {α β : Type} (x : EvM α) (f : α → EvM β) :
    x >>= f = match x.result with
      | .error e => ⟨x.trace, .error e⟩
      | .ok a => ⟨x.trace ++ (f a).trace, (f a).result⟩ := rfl

theorem evBind_ok {α β : Type} {x : EvM α} {a : α} (f : α → EvM β)
    (h : x.result = .ok a) :
    x >>= f = ⟨x.trace ++ (f a).trace, (f a).result⟩ := by
  rw [evBind_def, h]

theorem evBind_err {α β : Type} {x : EvM α} {e : String} (f : α → EvM β)
    (h : x.result = .error e) :
    x >>= f = ⟨x.trace, .error e⟩ := by
  rw [evBind_def, h]

/-- Computations whose trace is all LLM calls (no index operations). -/
def TraceGen {α : Type} (x : EvM α) : Prop :=
  ∀ e ∈ x.trace, isLlmCall e = true

theorem traceGen_bind {α β : Type} {x : EvM α} {f : α → EvM β}
    (hx : TraceGen x) (hf : ∀ a, TraceGen (f a)) : TraceGen (x >>= f) := by
  rw [evBind_def]
  cases hres : x.result with
  | error e => exact hx
  | ok a =>
      intro ev hev
      rcases List.mem_append.1 hev with h | h
      · exact hx ev h
      · exact hf a ev h

theorem traceGen_evLift {α : Type} (x : Except String α) : TraceGen (evLift x) := by
  intro e he
  simp [evLift] at he

theorem traceGen_pure {α : Type} (a : α) : TraceGen (pure (f := EvM) a) := by
  intro e he
  simp [pure] at he

theorem traceGen_of_call {α : Type} {x : EvM α} {n : Nat}
    (h : x.trace = [Event.llmCall n]) : TraceGen x := by
  intro e he
  rw [h] at he
  simp at he
  rw [he]
  rfl

/-- A pass's only effect is its single LLM call. -/
theorem call_llm_trace (env : IngestEnv) (n : Nat) (p : String) :
    (_call_llm env n p).trace = [Event.llmCall n] := by
  unfold _call_llm
  cases h : env.llm n p with
  | error e => simp [evBind_def, evTell, evLift, h]
  | ok content =>
      simp only [evBind_def, evTell, evLift, h]
      split
      · simp_all [pure, evFail]
      · simp_all [pure, evFail]
        split <;> rfl

theorem bind_evLift_trace {α β : Type} (x : EvM α) (g : α → Except String β) :
    (x >>= fun a => evLift (g a)).trace = x.trace := by
  rw [evBind_def]
  cases h : x.result <;> simp [evLift]

theorem qa_for_defects_trace (env : IngestEnv) (n : Nat) (df : DataFrame)
    (release filename : String) :
    (qa_for_defects env n df release filename).trace = [Event.llmCall n] := by
  unfold qa_for_defects
  rw [bind_evLift_trace, call_llm_trace]

theorem qa_for_tests_trace (env : IngestEnv) (n : Nat) (df : DataFrame)
    (release filename : String) :
    (qa_for_tests env n df release filename).trace = [Event.llmCall n] := by
  unfold qa_for_tests
  rw [bind_evLift_trace, call_llm_trace]

theorem qa_for_metadata_trace (env : IngestEnv) (n : Nat) (df : DataFrame)
    (release filename : String) :
    (qa_for_metadata env n df release filename).trace = [Event.llmCall n] := by
  unfold qa_for_metadata
  rw [bind_evLift_trace, call_llm_trace]

theorem qa_cross_release_trace (env : IngestEnv) (n : Nat)
    (da ta ma db tb mb : DataFrame) :
    (qa_cross_release env n da ta ma db tb mb).trace = [Event.llmCall n] := by
  unfold qa_cross_release
  rw [bind_evLift_trace, call_llm_trace]

/-- The whole generation phase performs only LLM calls. -/
theorem generate_traceGen (env : IngestEnv) : TraceGen (generate env) := by
  unfold generate
  refine traceGen_bind (traceGen_evLift _) fun L => ?_
  refine traceGen_bind (traceGen_of_call (qa_for_defects_trace _ _ _ _ _)) fun d1 => ?_
  refine traceGen_bind (traceGen_of_call (qa_for_tests_trace _ _ _ _ _)) fun d2 => ?_
  refine traceGen_bind (traceGen_of_call (qa_for_metadata_trace _ _ _ _ _)) fun d3 => ?_
  refine traceGen_bind (traceGen_of_call (qa_for_defects_trace _ _ _ _ _)) fun d4 => ?_
  refine traceGen_bind (traceGen_of_call (qa_for_tests_trace _ _ _ _ _)) fun d5 => ?_
  refine traceGen_bind (traceGen_of_call (qa_for_metadata_trace _ _ _ _ _)) fun d6 => ?_
  refine traceGen_bind (traceGen_of_call (qa_cross_release_trace _ _ _ _ _ _ _ _)) fun d7 => ?_
  exact traceGen_pure _

/-- A failed run performed no index operation. -/
theorem ingest_err_traceGen (env : IngestEnv) (e : String)
    (h : (ingest env).result = .error e) : TraceGen (ingest env) := by
  unfold ingest at h ⊢
  cases hk : env.apiKey with
  | none => intro ev hev; simp [hk, evFail] at hev
  | some key =>
      simp only [hk] at h ⊢
      cases hg : (generate env).result with
      | error e2 =>
          rw [evBind_err _ hg]
          exact generate_traceGen env
      | ok docs =>
          exfalso
          rw [evBind_ok _ hg] at h
          simp only at h
          revert h
          split <;> simp [evBind_def, evTell, pure]

/-- A successful run's trace is the generation trace followed by the
optional discard and the single bulk write. -/
theorem ingest_ok_split (env : IngestEnv) (docs : List Document)
    (h : (ingest env).result = .ok docs) :
    (generate env).result = .ok docs ∧
    (ingest env).trace = (generate env).trace
      ++ ((if env.chromaExists then [Event.discard] else []) ++ [Event.bulkWrite docs]) := by
  unfold ingest at h ⊢
  cases hk : env.apiKey with
  | none => simp [hk, evFail] at h
  | some key =>
      simp only [hk] at h ⊢
      cases hg : (generate env).result with
      | error e2 => rw [evBind_err _ hg] at h; simp at h
      | ok a =>
          rw [evBind_ok _ hg] at h ⊢
          have ha : a = docs := by
            revert h
            simp only
            split <;> simp [evBind_def, evTell, pure]
          subst ha
          refine ⟨rfl, ?_⟩
          simp only
          split <;> simp [evBind_def, evTell, pure]

theorem applyEvents_append (l1 l2 : List Event) (st : Option (List Document)) :
    applyEvents (l1 ++ l2) st = applyEvents l2 (applyEvents l1 st) := by
  induction l1 generalizing st with
  | nil => rfl
  | cons ev rest ih => cases ev <;> simp [applyEvents, ih]

theorem applyEvents_of_traceGen {l : List Event} {st : Option (List Document)}
    (h : ∀ e ∈ l, isLlmCall e = true) : applyEvents l st = st := by
  induction l with
  | nil => rfl
  | cons ev rest ih =>
      cases ev with
      | llmCall n => exact ih fun e he => h e (List.mem_cons_of_mem _ he)
      | discard => simpa [isLlmCall] using h .discard (List.mem_cons_self _ _)
      | bulkWrite d => simpa [isLlmCall] using h (.bulkWrite d) (List.mem_cons_self _ _)

/-! ## Helper lemmas: Python string primitives -/

theorem mem_of_mem_pyStrip {c : Char} {s : String} (h : c ∈ (pyStrip s).data) :
    c ∈ s.data := by
  unfold pyStrip at h
  simp only [String.data] at h
  rw [List.mem_reverse] at h
  have h2 := (List.dropWhile_sublist _).mem h
  rw [List.mem_reverse] at h2
  exact (List.dropWhile_sublist _).mem h2

theorem pyFind_eq_neg_one_iff (s : String) (c : Char) :
    pyFind s c = -1 ↔ c ∉ s.data := by
  cases h : s.data.findIdx? (fun x => x = c) with
  | none =>
      simp only [pyFind, h]
      rw [List.findIdx?_eq_none_iff] at h
      refine ⟨fun _ hmem => ?_, fun _ => trivial⟩
      have := h c hmem
      simp at this
  | some i =>
      simp only [pyFind, h]
      rw [List.findIdx?_eq_some_iff_getElem] at h
      obtain ⟨hlt, hp, -⟩ := h
      refine ⟨fun hi => absurd hi (by omega), fun hmem => absurd ?_ hmem⟩
      have hceq : s.data[i] = c := by simpa using hp
      rw [← hceq]
      exact List.getElem_mem hlt

theorem pyRFind_eq_neg_one_iff (s : String) (c : Char) :
    pyRFind s c = -1 ↔ c ∉ s.data := by
  cases h : s.data.reverse.findIdx? (fun x => x = c) with
  | none =>
      simp only [pyRFind, h]
      rw [List.findIdx?_eq_none_iff] at h
      refine ⟨fun _ hmem => ?_, fun _ => trivial⟩
      have := h c (List.mem_reverse.2 hmem)
      simp at this
  | some i =>
      simp only [pyRFind, h]
      rw [List.findIdx?_eq_some_iff_getElem] at h
      obtain ⟨hlt, hp, -⟩ := h
      refine ⟨fun hi => absurd hi (by omega), fun hmem => absurd ?_ hmem⟩
      have hceq : s.data.reverse[i] = c := by simpa using hp
      rw [← List.mem_reverse, ← hceq]
      exact List.getElem_mem hlt

theorem pyFind_nonneg_of_mem {s : String} {c : Char} (hmem : c ∈ s.data) :
    0 ≤ pyFind s c := by
  cases h : s.data.findIdx? (fun x => x = c) with
  | none =>
      rw [List.findIdx?_eq_none_iff] at h
      have := h c hmem
      simp at this
  | some i =>
      simp only [pyFind, h]
      exact Int.ofNat_nonneg i

theorem pyRFind_nonneg_of_mem {s : String} {c : Char} (hmem : c ∈ s.data) :
    0 ≤ pyRFind s c := by
  cases h : s.data.reverse.findIdx? (fun x => x = c) with
  | none =>
      rw [List.findIdx?_eq_none_iff] at h
      have := h c (List.mem_reverse.2 hmem)
      simp at this
  | some i =>
      simp only [pyRFind, h]
      exact Int.ofNat_nonneg _

/-- When the slice bounds collapse (`a ≥ b`), the Python slice is
empty. -/
theorem pySlice_empty {s : String} {a b : Int} (h : b ≤ a) :
    pySlice s a b = "" := by
  unfold pySlice
  have : b.toNat - a.toNat = 0 := by omega
  rw [this]
  rfl

/-! ## Helper lemmas: `_call_llm` extraction behavior -/

/-- If the response contains no `[` or no `]`, `_call_llm` warns and
returns the empty pair list — no exception, the run continues. -/
theorem call_llm_soft_fail (env : IngestEnv) (n : Nat) (p content : String)
    (hllm : env.llm n p = .ok content)
    (h : '[' ∉ content.data ∨ ']' ∉ content.data) :
    _call_llm env n p = ⟨[Event.llmCall n], .ok []⟩ := by
  have h' : pyFind (pyStrip content) '[' = -1 ∨ pyRFind (pyStrip content) ']' + 1 = 0 := by
    rcases h with h | h
    · exact Or.inl ((pyFind_eq_neg_one_iff _ _).2 fun hm => h (mem_of_mem_pyStrip hm))
    · have := (pyRFind_eq_neg_one_iff (pyStrip content) ']').2
        fun hm => h (mem_of_mem_pyStrip hm)
      omega
  simp only [_call_llm, hllm, evBind_def, evTell, evLift]
  rw [if_pos h']
  rfl

/-- If both brackets occur but the last `]` precedes the first `[`, the
slice is empty and `json.loads` raises — `_call_llm` does NOT return the
empty list. -/
theorem call_llm_wrong_order (env : IngestEnv) (n : Nat) (p content : String)
    (hllm : env.llm n p = .ok content)
    (hl : '[' ∈ (pyStrip content).data) (hr : ']' ∈ (pyStrip content).data)
    (horder : pyRFind (pyStrip content) ']' < pyFind (pyStrip content) '[') :
    _call_llm env n p = ⟨[Event.llmCall n], .error "Expecting value"⟩ := by
  have h1 : 0 ≤ pyFind (pyStrip content) '[' := pyFind_nonneg_of_mem hl
  have h2 : 0 ≤ pyRFind (pyStrip content) ']' := pyRFind_nonneg_of_mem hr
  have hcond : ¬(pyFind (pyStrip content) '[' = -1
      ∨ pyRFind (pyStrip content) ']' + 1 = 0) := by omega
  have hslice : pySlice (pyStrip content) (pyFind (pyStrip content) '[')
      (pyRFind (pyStrip content) ']' + 1) = "" := pySlice_empty (by omega)
  simp only [_call_llm, hllm, evBind_def, evTell, evLift]
  rw [if_neg hcond, hslice]
  rfl

/-! ## Helper lemmas: the ingestion guard's lock-ownership invariant -/

namespace Guard

theorem inv_init (store0 : Option Nat) : Inv (init store0) := by
  intro t h
  simp [init, inBody] at h

theorem inv_step {o : Nat → Bool} {s s' : SysState} (hs : Inv s)
    (h : Step o s s') : Inv s' := by
  obtain ⟨t, hstep⟩ := h
  cases hstep with
  | acquire_fail u hpc hheld =>
      intro v hv
      have hv' : inBody (Function.update s.pc t PC.done v) = true := hv
      show s.held = some v
      by_cases hvt : v = t
      · subst hvt
        rw [Function.update_same] at hv'
        simp [inBody] at hv'
      · rw [Function.update_noteq hvt] at hv'
        exact hs v hv'
  | acquire_ok hpc hheld =>
      intro v hv
      have hv' : inBody (Function.update s.pc t PC.setRun v) = true := hv
      show some t = some v
      by_cases hvt : v = t
      · subst hvt
        rfl
      · rw [Function.update_noteq hvt] at hv'
        have := hs v hv'
        rw [hheld] at this
        exact absurd this (by simp)
  | set_running hpc =>
      intro v hv
      have hv' : inBody (Function.update s.pc t PC.work v) = true := hv
      show s.held = some v
      by_cases hvt : v = t
      · subst hvt
        exact hs v (by rw [hpc]; rfl)
      · rw [Function.update_noteq hvt] at hv'
        exact hs v hv'
  | work_ok hpc hout =>
      intro v hv
      have hv' : inBody (Function.update s.pc t PC.cleanup v) = true := hv
      show s.held = some v
      by_cases hvt : v = t
      · subst hvt
        exact hs v (by rw [hpc]; rfl)
      · rw [Function.update_noteq hvt] at hv'
        exact hs v hv'
  | work_fail hpc hout =>
      intro v hv
      have hv' : inBody (Function.update s.pc t PC.cleanup v) = true := hv
      show s.held = some v
      by_cases hvt : v = t
      · subst hvt
        exact hs v (by rw [hpc]; rfl)
      · rw [Function.update_noteq hvt] at hv'
        exact hs v hv'
  | clear_running hpc =>
      intro v hv
      have hv' : inBody (Function.update s.pc t PC.rel v) = true := hv
      show s.held = some v
      by_cases hvt : v = t
      · subst hvt
        exact hs v (by rw [hpc]; rfl)
      · rw [Function.update_noteq hvt] at hv'
        exact hs v hv'
  | release hpc =>
      intro v hv
      have hv' : inBody (Function.update s.pc t PC.done v) = true := hv
      show none = some v
      by_cases hvt : v = t
      · subst hvt
        rw [Function.update_same] at hv'
        simp [inBody] at hv'
      · rw [Function.update_noteq hvt] at hv'
        have h1 := hs v hv'
        have h2 := hs t (by rw [hpc]; rfl)
        rw [h1] at h2
        exact absurd (Option.some.inj h2) hvt

theorem reachable_inv {o : Nat → Bool} {store0 : Option Nat} {s : SysState}
    (h : Reachable o store0 s) : Inv s := by
  induction h with
  | refl => exact inv_init store0
  | tail _ hstep ih => exact inv_step ih hstep

end Guard

/-! ## Helper lemmas: the load phase -/

theorem exBind_ok {α β : Type} (a : α) (f : α → Except String β) :
    (Except.ok a : Except String α) >>= f = f a := rfl

theorem exBind_err {α β : Type} (e : String) (f : α → Except String β) :
    (Except.error e : Except String α) >>= f = .error e := rfl

theorem load_err_of_zero_glob (env : IngestEnv) (name : String)
    (hglob : env.globMatches name = []) :
    load env name = .error (loadErrMsg name) := by
  unfold load
  rw [hglob]

/-- If any required pattern matches no file, the load phase raises. -/
theorem loadAll_err_of_zero_glob (env : IngestEnv)
    (h : ∃ name ∈ requiredDatasets, env.globMatches name = []) :
    ∃ e, loadAll env = .error e := by
  obtain ⟨name, hmem, hglob⟩ := h
  have hload := load_err_of_zero_glob env name hglob
  simp only [requiredDatasets, List.mem_cons, List.not_mem_nil, or_false] at hmem
  rcases hmem with rfl | rfl | rfl | rfl | rfl | rfl
  · exact ⟨loadErrMsg "ReleaseA_Defects", by simp only [loadAll, hload, exBind_err]⟩
  · cases hL1 : load env "ReleaseA_Defects" with
    | error e1 => exact ⟨e1, by simp only [loadAll, hL1, exBind_err]⟩
    | ok v1 =>
        exact ⟨loadErrMsg "ReleaseA_TestExecution",
          by simp only [loadAll, hL1, exBind_ok, hload, exBind_err]⟩
  · cases hL1 : load env "ReleaseA_Defects" with
    | error e1 => exact ⟨e1, by simp only [loadAll, hL1, exBind_err]⟩
    | ok v1 =>
        cases hL2 : load env "ReleaseA_TestExecution" with
        | error e2 => exact ⟨e2, by simp only [loadAll, hL1, hL2, exBind_ok, exBind_err]⟩
        | ok v2 =>
            exact ⟨loadErrMsg "ReleaseA_Meta",
              by simp only [loadAll, hL1, hL2, exBind_ok, hload, exBind_err]⟩
  · cases hL1 : load env "ReleaseA_Defects" with
    | error e1 => exact ⟨e1, by simp only [loadAll, hL1, exBind_err]⟩
    | ok v1 =>
        cases hL2 : load env "ReleaseA_TestExecution" with
        | error e2 => exact ⟨e2, by simp only [loadAll, hL1, hL2, exBind_ok, exBind_err]⟩
        | ok v2 =>
            cases hL3 : load env "ReleaseA_Meta" with
            | error e3 =>
                exact ⟨e3, by simp only [loadAll, hL1, hL2, hL3, exBind_ok, exBind_err]⟩
            | ok v3 =>
                exact ⟨loadErrMsg "ReleaseB_Defects", by
                  simp only [loadAll, hL1, hL2, hL3, exBind_ok, hload, exBind_err]⟩
  · cases hL1 : load env "ReleaseA_Defects" with
    | error e1 => exact ⟨e1, by simp only [loadAll, hL1, exBind_err]⟩
    | ok v1 =>
        cases hL2 : load env "ReleaseA_TestExecution" with
        | error e2 => exact ⟨e2, by simp only [loadAll, hL1, hL2, exBind_ok, exBind_err]⟩
        | ok v2 =>
            cases hL3 : load env "ReleaseA_Meta" with
            | error e3 =>
                exact ⟨e3, by simp only [loadAll, hL1, hL2, hL3, exBind_ok, exBind_err]⟩
            | ok v3 =>
                cases hL4 : load env "ReleaseB_Defects" with
                | error e4 =>
                    exact ⟨e4, by
                      simp only [loadAll, hL1, hL2, hL3, hL4, exBind_ok, exBind_err]⟩
                | ok v4 =>
                    exact ⟨loadErrMsg "ReleaseB_TestExecution", by
                      simp only [loadAll, hL1, hL2, hL3, hL4, exBind_ok, hload, exBind_err]⟩
  · cases hL1 : load env "ReleaseA_Defects" with
    | error e1 => exact ⟨e1, by simp only [loadAll, hL1, exBind_err]⟩
    | ok v1 =>
        cases hL2 : load env "ReleaseA_TestExecution" with
        | error e2 => exact ⟨e2, by simp only [loadAll, hL1, hL2, exBind_ok, exBind_err]⟩
        | ok v2 =>
            cases hL3 : load env "ReleaseA_Meta" with
            | error e3 =>
                exact ⟨e3, by simp only [loadAll, hL1, hL2, hL3, exBind_ok, exBind_err]⟩
            | ok v3 =>
                cases hL4 : load env "ReleaseB_Defects" with
                | error e4 =>
                    exact ⟨e4, by
                      simp only [loadAll, hL1, hL2, hL3, hL4, exBind_ok, exBind_err]⟩
                | ok v4 =>
                    cases hL5 : load env "ReleaseB_TestExecution" with
                    | error e5 =>
                        exact ⟨e5, by
                          simp only [loadAll, hL1, hL2, hL3, hL4, hL5, exBind_ok, exBind_err]⟩
                    | ok v5 =>
                        exact ⟨loadErrMsg "ReleaseB_Meta", by
                          simp only [loadAll, hL1, hL2, hL3, hL4, hL5, exBind_ok,
                            hload, exBind_err]⟩

/-- A zero-match run raises before ANY effect: no LLM call, no index
operation — the whole trace is empty. -/
theorem ingest_err_of_zero_glob (env : IngestEnv)
    (h : ∃ name ∈ requiredDatasets, env.globMatches name = []) :
    ∃ e, ingest env = ⟨[], .error e⟩ := by
  cases hk : env.apiKey with
  | none =>
      refine ⟨"RuntimeError: GROQ_API_KEY not set. Add it to backend/.env", ?_⟩
      simp [ingest, hk, evFail]
  | some key =>
      obtain ⟨e, he⟩ := loadAll_err_of_zero_glob env h
      refine ⟨e, ?_⟩
      have h1 : evLift (loadAll env) = (⟨[], .error e⟩ : EvM Loaded) := by
        simp [evLift, he]
      have hgen : generate env = ⟨[], .error e⟩ := by
        unfold generate
        rw [h1]
        rfl
      unfold ingest
      rw [hk]
      simp only [evBind_def, hgen]

/-- Spec-side characterization of `pairs_to_documents` on well-formed
`\x7bquestion, answer\x7d` dicts: one document per pair passing the
non-empty-after-trim test, rendered canonically, in order, with no
deduplication. -/
theorem pairs_to_documents_map_filter (ps : List (String × String)) (md : PassMetadata) :
    pairs_to_documents (ps.map fun p => mkPair p.1 p.2) md
      = .ok ((ps.filter fun p => decide (pyStrip p.1 ≠ "" ∧ pyStrip p.2 ≠ "")).map fun p =>
          { page_content := "Q: " ++ pyStrip p.1 ++ "\nA: " ++ pyStrip p.2,
            metadata := ⟨md.source, md.doc_type, md.release, pyStrip p.1⟩ }) := by
  induction ps with
  | nil => rfl
  | cons p rest ih =>
      obtain ⟨q, a⟩ := p
      have hstep : pairs_to_documents ((⟨q, a⟩ :: rest).map fun p => mkPair p.1 p.2) md
          = (pairs_to_documents (rest.map fun p => mkPair p.1 p.2) md) >>= fun tail =>
            if pyStrip q ≠ "" ∧ pyStrip a ≠ "" then
              .ok ({ page_content := "Q: " ++ pyStrip q ++ "\nA: " ++ pyStrip a,
                     metadata := ⟨md.source, md.doc_type, md.release, pyStrip q⟩ } :: tail)
            else .ok tail := rfl
      rw [hstep, ih]
      by_cases hc : pyStrip q ≠ "" ∧ pyStrip a ≠ ""
      · simp [List.filter_cons, hc, exBind_ok]
      · simp [List.filter_cons, hc, exBind_ok]

/-! ## The claims -/

/-- C5: `_call_llm` extracts the substring from the first `[` through
the last `]` of the stripped response and parses it as a JSON array;
when either bracket is absent it returns the empty list without raising,
and on the spec's example response it yields exactly the pair
`\x7bQ1, A1\x7d`. -/
theorem C5_robust_extraction :
    (∀ (env : IngestEnv) (n : Nat) (p content : String),
        env.llm n p = .ok content →
        ('[' ∉ content.data ∨ ']' ∉ content.data) →
        _call_llm env n p = ⟨[Event.llmCall n], .ok []⟩)
  ∧ _call_llm (envResp c5Response) 0 "prompt"
      = ⟨[Event.llmCall 0], .ok [Json.obj [("question", .str "Q1"), ("answer", .str "A1")]]⟩ :=
  ⟨call_llm_soft_fail, rfl⟩

/-- C5 witness: the universal soft-failure part applied to a concrete
bracket-free response. -/
theorem C5_witness :
    _call_llm (envResp "no brackets here") 0 "p" = ⟨[Event.llmCall 0], .ok []⟩ :=
  C5_robust_extraction.1 (envResp "no brackets here") 0 "p" "no brackets here" rfl
    (Or.inl (by decide))

/-- C6: `pairs_to_documents` emits one document per pair whose trimmed
question and answer are both non-empty, rendered `"Q: ⟨q⟩\nA: ⟨a⟩"`, and
drops every other pair, with no deduplication; on the spec's example
only the Q2/A2 document survives. -/
theorem C6_packager_drops_empty :
    (∀ (ps : List (String × String)) (md : PassMetadata),
        pairs_to_documents (ps.map fun p => mkPair p.1 p.2) md
          = .ok ((ps.filter fun p => decide (pyStrip p.1 ≠ "" ∧ pyStrip p.2 ≠ "")).map fun p =>
              { page_content := "Q: " ++ pyStrip p.1 ++ "\nA: " ++ pyStrip p.2,
                metadata := ⟨md.source, md.doc_type, md.release, pyStrip p.1⟩ }))
  ∧ (∀ md : PassMetadata,
        pairs_to_documents [mkPair "Q" "", mkPair "Q2" "A2"] md
          = .ok [{ page_content := "Q: Q2\nA: A2",
                   metadata := ⟨md.source, md.doc_type, md.release, "Q2"⟩ }]) :=
  ⟨pairs_to_documents_map_filter, fun _ => rfl⟩

/-- C7: `queryWhere` returns no filter when neither field is given, the
single equality for one field, the AND of both for two, and normalizes
the `"string"` placeholder to absent; it is a total function. -/
theorem C7_filter_composition :
    queryWhere none none = none
  ∧ (∀ r : String, r ≠ "string" → r ≠ "" →
        queryWhere (some r) none = some (.eq "release" r))
  ∧ (∀ d : String, d ≠ "string" → d ≠ "" →
        queryWhere none (some d) = some (.eq "doc_type" d))
  ∧ (∀ r d : String, r ≠ "string" → r ≠ "" → d ≠ "string" → d ≠ "" →
        queryWhere (some r) (some d)
          = some (.andW [.eq "release" r, .eq "doc_type" d]))
  ∧ (∀ x : Option String, queryWhere (some "string") x = queryWhere none x)
  ∧ (∀ x : Option String, queryWhere x (some "string") = queryWhere x none) := by
  refine ⟨rfl, ?_, ?_, ?_, ?_, ?_⟩
  · intro r h1 h2
    simp [queryWhere, h1, h2]
  · intro d h1 h2
    simp [queryWhere, h1, h2]
  · intro r d h1 h2 h3 h4
    simp [queryWhere, h1, h2, h3, h4]
  · intro x
    rfl
  · intro x
    cases x with
    | none => rfl
    | some s =>
        by_cases hs : s = "string"
        · subst hs
          rfl
        · by_cases he : s = ""
          · subst he
            rfl
          · simp [queryWhere, hs, he]

/-- C7 witness: the one-field case applied at `release = "ReleaseA"`. -/
theorem C7_witness :
    queryWhere (some "ReleaseA") none = some (.eq "release" "ReleaseA") :=
  C7_filter_composition.2.1 "ReleaseA" (by decide) (by decide)

/-- C8: for a ready service, `/query` joins the retrieved documents'
contents with the fixed separator (or substitutes the sentinel when none
are retrieved), invokes the chain on that context, and returns as
sources exactly the retrieved documents, in retrieval order. -/
theorem C8_context_and_sources :
    ∀ (vs : String → Nat → Option WhereClause → List Document)
      (chain : String → String → String) (req : QueryRequest),
      query ⟨some vs, some chain, false⟩ req
        = .ok { answer := chain
                  (if vs req.question req.k (queryWhere req.release req.doc_type) = []
                   then noDocsSentinel
                   else String.intercalate contextSeparator
                     ((vs req.question req.k (queryWhere req.release req.doc_type)).map
                       fun d => d.page_content))
                  req.question,
                sources := (vs req.question req.k (queryWhere req.release req.doc_type)).map
                  fun d => ⟨d.page_content, d.metadata⟩ } := by
  intro vs chain req
  by_cases hd : vs req.question req.k (queryWhere req.release req.doc_type) = []
  · simp [query, hd]
  · simp [query, hd]

/-- C9: `/query` answers `503` exactly when the vector store or LLM
handle is uninitialized or an ingestion is recorded as running; every
error it raises is a `503`. -/
theorem C9_query_unavailable_503 :
    ∀ (st : AppState) (req : QueryRequest),
      (isOkE (query st req) = true
        ↔ (st.vectorstore.isSome ∧ st.llm.isSome ∧ st.ingest_running = false))
  ∧ (∀ e, query st req = .error e → e.status_code = 503) := by
  intro st req
  obtain ⟨vs, l, run⟩ := st
  cases vs <;> cases l <;> cases run <;>
    constructor <;>
    simp [query, isOkE]

/-- C9 witness: the 503 fact applied to the not-ready state. -/
theorem C9_witness :
    HTTPError.status_code ⟨503, "Service not ready."⟩ = 503 :=
  (C9_query_unavailable_503 ⟨none, none, false⟩ ⟨"q", none, none, 8⟩).2
    ⟨503, "Service not ready."⟩ rfl

/-- C10: the soft-failure (empty-list) branch of `_call_llm` triggers
exactly when `[` or `]` is absent; when both occur but the last `]`
precedes the first `[`, the slice is empty and `json.loads` raises a
parse error instead. -/
theorem C10_bracket_order :
    (∀ s : String,
        (pyFind s '[' = -1 ∨ pyRFind s ']' + 1 = 0) ↔ ('[' ∉ s.data ∨ ']' ∉ s.data))
  ∧ (∀ (env : IngestEnv) (n : Nat) (p content : String),
        env.llm n p = .ok content →
        '[' ∈ (pyStrip content).data → ']' ∈ (pyStrip content).data →
        pyRFind (pyStrip content) ']' < pyFind (pyStrip content) '[' →
        _call_llm env n p = ⟨[Event.llmCall n], .error "Expecting value"⟩) := by
  constructor
  · intro s
    constructor
    · rintro (h | h)
      · exact Or.inl ((pyFind_eq_neg_one_iff s '[').1 h)
      · refine Or.inr ((pyRFind_eq_neg_one_iff s ']').1 ?_)
        omega
    · rintro (h | h)
      · exact Or.inl ((pyFind_eq_neg_one_iff s '[').2 h)
      · have := (pyRFind_eq_neg_one_iff s ']').2 h
        omega
  · exact call_llm_wrong_order

/-- C10 witness: the parse-error branch applied to the response
`"] ["`. -/
theorem C10_witness :
    _call_llm (envResp "] [") 0 "p" = ⟨[Event.llmCall 0], .error "Expecting value"⟩ :=
  C10_bracket_order.2 (envResp "] [") 0 "p" "] [" rfl (by decide) (by decide) (by decide)

/-- C1: a failed run leaves the persisted collection exactly as it was
(its trace holds no index operation), and a successful run's trace is
all LLM calls, then the optional discard, then ONE bulk write of the
full aggregated list — whose cumulative effect replaces the collection
with exactly that list. -/
theorem C1_rebuild_only_after_generation :
    ∀ (env : IngestEnv) (prev : Option (List Document)),
      (∀ e, (ingest env).result = .error e →
          applyEvents (ingest env).trace prev = prev)
    ∧ (∀ docs, (ingest env).result = .ok docs →
          applyEvents (ingest env).trace prev = some docs
        ∧ ∃ pre, (ingest env).trace
              = pre ++ ((if env.chromaExists then [Event.discard] else []) ++ [Event.bulkWrite docs])
            ∧ ∀ e ∈ pre, isLlmCall e = true) := by
  intro env prev
  constructor
  · intro e he
    exact applyEvents_of_traceGen (ingest_err_traceGen env e he)
  · intro docs hd
    obtain ⟨hgen, htrace⟩ := ingest_ok_split env docs hd
    refine ⟨?_, (generate env).trace, htrace, generate_traceGen env⟩
    rw [htrace, applyEvents_append, applyEvents_of_traceGen (generate_traceGen env)]
    cases hc : env.chromaExists <;> simp [applyEvents]

/-- C1 witness: the success branch applied to a concrete run over a
previously non-empty collection. -/
theorem C1_witness :
    applyEvents (ingest (envResp "[]")).trace
        (some [⟨"old", ⟨"old.xlsx", "defect", "ReleaseA", "old"⟩⟩]) = some sixDocs
  ∧ ∃ pre, (ingest (envResp "[]")).trace
        = pre ++ ((if (envResp "[]").chromaExists then [Event.discard] else [])
            ++ [Event.bulkWrite sixDocs])
      ∧ ∀ e ∈ pre, isLlmCall e = true :=
  (C1_rebuild_only_after_generation (envResp "[]")
    (some [⟨"old", ⟨"old.xlsx", "defect", "ReleaseA", "old"⟩⟩])).2 sixDocs rfl

/-- C2 counterexample: when the bracket-delimited substring of pass 1's
response is not valid JSON, the whole run aborts at that pass — the six
sibling passes never execute and nothing is committed — contradicting
the claim that the siblings' documents are still committed. -/
theorem C2_counterexample :
    (ingest (envResp "[oops]")).result = .error "Expecting value"
  ∧ (ingest (envResp "[oops]")).trace = [Event.llmCall 0] :=
  ⟨rfl, rfl⟩

/-- C2 (amended): a pass whose response lacks `[` or `]` degrades to
zero documents and the run continues — sibling passes run and their
documents are committed; but a response whose bracket-delimited
substring fails to parse as JSON raises, aborting the entire run before
any index operation. -/
theorem C2_amended_parse_failure_aborts :
    (∀ (env : IngestEnv) (n : Nat) (p content : String),
        env.llm n p = .ok content →
        ('[' ∉ content.data ∨ ']' ∉ content.data) →
        _call_llm env n p = ⟨[Event.llmCall n], .ok []⟩)
  ∧ (∀ r : String, ('[' ∉ r.data ∨ ']' ∉ r.data) →
        ingest (envResp r)
          = ⟨sevenCalls ++ [Event.discard, Event.bulkWrite sixDocs], .ok sixDocs⟩)
  ∧ (ingest (envResp "[oops]")).result = .error "Expecting value"
  ∧ (ingest (envResp "[oops]")).trace = [Event.llmCall 0] := by
  refine ⟨call_llm_soft_fail, ?_, rfl, rfl⟩
  intro r h
  have hsoft : ∀ p, _call_llm (envResp r) 0 p = ⟨[Event.llmCall 0], .ok []⟩ :=
    fun p => call_llm_soft_fail (envResp r) 0 p r rfl h
  have hqa : ∀ (df : DataFrame) (fn : String),
      qa_for_defects (envResp r) 0 df "ReleaseA" fn = ⟨[Event.llmCall 0], .ok []⟩ := by
    intro df fn
    unfold qa_for_defects
    rw [hsoft]
    rfl
  unfold ingest generate
  simp only [hqa]
  rfl

/-- C2 witness: the soft-failure run applied to a concrete bracket-free
response. -/
theorem C2_witness :
    ingest (envResp "no json array in this response")
      = ⟨sevenCalls ++ [Event.discard, Event.bulkWrite sixDocs], .ok sixDocs⟩ :=
  C2_amended_parse_failure_aborts.2.1 "no json array in this response"
    (Or.inl (by decide))

/-- C3 counterexample: with TWO files matching `ReleaseA_Defects`, the
run does not abort — the first match is read, all seven LLM calls are
made, and the rebuild is committed — contradicting the claim that
multiple matches are a fatal error raised before any LLM call. -/
theorem C3_counterexample :
    load envMulti "ReleaseA_Defects" = .ok (df0, "ReleaseA_Defects_v1.xlsx")
  ∧ (ingest envMulti).result = .ok []
  ∧ (ingest envMulti).trace = sevenCalls ++ [Event.discard, Event.bulkWrite []] :=
  ⟨rfl, rfl, rfl⟩

/-- C3 (amended): a pattern matching ZERO files is fatal — the run
aborts with no LLM call and no index operation, leaving the previous
collection unchanged; a pattern matching more than one file is not an
error: the first match (in glob order) is used. -/
theorem C3_amended_zero_matches_fatal :
    (∀ (env : IngestEnv) (prev : Option (List Document)),
        (∃ name ∈ requiredDatasets, env.globMatches name = []) →
        ∃ e, (ingest env).result = .error e ∧ (ingest env).trace = []
          ∧ applyEvents (ingest env).trace prev = prev)
  ∧ (∀ (env : IngestEnv) (name m : String) (rest : List String),
        env.globMatches name = m :: rest →
        load env name = (env.readExcel m).map fun df => (df, m)) := by
  constructor
  · intro env prev h
    obtain ⟨e, he⟩ := ingest_err_of_zero_glob env h
    exact ⟨e, by rw [he], by rw [he], by rw [he]; rfl⟩
  · intro env name m rest h
    unfold load
    rw [h]

/-- C3 witness: the zero-match abort applied to a concrete environment
missing `ReleaseA_TestExecution`. -/
theorem C3_witness :
    ∃ e, (ingest envZeroGlob).result = .error e ∧ (ingest envZeroGlob).trace = []
      ∧ applyEvents (ingest envZeroGlob).trace none = none :=
  C3_amended_zero_matches_fatal.1 envZeroGlob none
    ⟨"ReleaseA_TestExecution", by simp [requiredDatasets], rfl⟩

/-- C4: in every reachable interleaving of `_run_ingest`, at most one
thread is inside the ingestion body (mutual exclusion); a trigger that
finds the lock held returns immediately changing nothing but its own
program counter; the `finally` block clears the running flag and then
releases the lock regardless of outcome; a successful `ingest()` step
refreshes the store to the freshly rebuilt generation and a failed one
leaves it untouched. -/
theorem C4_single_flight_guard :
    (∀ (o : Nat → Bool) (store0 : Option Nat) (s : Guard.SysState),
        Guard.Reachable o store0 s →
        ∀ t u, Guard.inBody (s.pc t) = true → Guard.inBody (s.pc u) = true → t = u)
  ∧ (∀ (o : Nat → Bool) (t u : Nat) (s s' : Guard.SysState),
        s.pc t = .start → s.held = some u → Guard.StepBy o t s s' →
        s' = { s with pc := Function.update s.pc t .done })
  ∧ (∀ (o : Nat → Bool) (t : Nat) (s s' : Guard.SysState),
        s.pc t = .cleanup → Guard.StepBy o t s s' →
        s'.running = false ∧ s'.pc t = .rel)
  ∧ (∀ (o : Nat → Bool) (t : Nat) (s s' : Guard.SysState),
        s.pc t = .rel → Guard.StepBy o t s s' →
        s'.held = none ∧ s'.pc t = .done)
  ∧ (∀ (o : Nat → Bool) (t : Nat) (s s' : Guard.SysState),
        s.pc t = .work → Guard.StepBy o t s s' →
        (o t = true → s'.gen = s.gen + 1 ∧ s'.store = some (s.gen + 1))
      ∧ (o t = false → s'.gen = s.gen ∧ s'.store = s.store)) := by
  refine ⟨?_, ?_, ?_, ?_, ?_⟩
  · intro o store0 s hr t u ht hu
    have inv := Guard.reachable_inv hr
    have h1 := inv t ht
    have h2 := inv u hu
    rw [h1] at h2
    exact Option.some.inj h2
  · intro o t u s s' hpc hheld hstep
    cases hstep with
    | acquire_fail w hw hh => rfl
    | acquire_ok hw hh => rw [hheld] at hh; cases hh
    | set_running hw => rw [hpc] at hw; cases hw
    | work_ok hw hout => rw [hpc] at hw; cases hw
    | work_fail hw hout => rw [hpc] at hw; cases hw
    | clear_running hw => rw [hpc] at hw; cases hw
    | release hw => rw [hpc] at hw; cases hw
  · intro o t s s' hpc hstep
    cases hstep with
    | acquire_fail w hw hh => rw [hpc] at hw; cases hw
    | acquire_ok hw hh => rw [hpc] at hw; cases hw
    | set_running hw => rw [hpc] at hw; cases hw
    | work_ok hw hout => rw [hpc] at hw; cases hw
    | work_fail hw hout => rw [hpc] at hw; cases hw
    | clear_running hw => exact ⟨rfl, Function.update_same _ _ _⟩
    | release hw => rw [hpc] at hw; cases hw
  · intro o t s s' hpc hstep
    cases hstep with
    | acquire_fail w hw hh => rw [hpc] at hw; cases hw
    | acquire_ok hw hh => rw [hpc] at hw; cases hw
    | set_running hw => rw [hpc] at hw; cases hw
    | work_ok hw hout => rw [hpc] at hw; cases hw
    | work_fail hw hout => rw [hpc] at hw; cases hw
    | clear_running hw => rw [hpc] at hw; cases hw
    | release hw => exact ⟨rfl, Function.update_same _ _ _⟩
  · intro o t s s' hpc hstep
    cases hstep with
    | acquire_fail w hw hh => rw [hpc] at hw; cases hw
    | acquire_ok hw hh => rw [hpc] at hw; cases hw
    | set_running hw => rw [hpc] at hw; cases hw
    | work_ok hw hout =>
        exact ⟨fun _ => ⟨rfl, rfl⟩, fun hf => absurd hout (by rw [hf]; exact Bool.false_ne_true)⟩
    | work_fail hw hout =>
        exact ⟨fun ht => absurd ht (by rw [hout]; exact Bool.false_ne_true), fun _ => ⟨rfl, rfl⟩⟩
    | clear_running hw => rw [hpc] at hw; cases hw
    | release hw => rw [hpc] at hw; cases hw

/-- C4 witness: the mutual-exclusion fact applied at the reachable state
in which thread 0 has just acquired the lock. -/
theorem C4_witness : (0 : Nat) = 0 :=
  C4_single_flight_guard.1 Guard.outcomeAll (some 0) Guard.s1
    (Relation.ReflTransGen.tail Relation.ReflTransGen.refl
      ⟨0, Guard.StepBy.acquire_ok (Guard.init (some 0)) rfl rfl⟩)
    0 0 (by decide) (by decide)

end RAG
